import Mathlib

/-!
Verification of the Linac QA Management System core (models.py, main.py).

Shallow embedding conventions:
* dates are modelled as integers (days); the Python code parses ISO strings
  with strptime and compares date objects, which agrees with integer order;
* Python floats are modelled as rationals; the code applies no rounding;
* the SQLite store is modelled as explicit lists in insertion order with
  autoincrement counters; ORDER BY is modelled as a stable insertion sort;
* Python exceptions escaping a handler are modelled by the PyError type;
  an operation returns the resulting store together with an optional error,
  so a crash after a commit is distinguishable from a rolled-back failure.
-/

namespace Linac

/-- One checklist item definition, an entry of SASQART_TESTS in models.py. -/
structure TestDef where
  id : String
  description : String
  tolerance : String
  action : String
  deriving DecidableEq

/-- The daily checklist of SASQART_TESTS in models.py. -/
def sasqartDaily : List TestDef :=
  [⟨"DL1", "Door interlock", "Functional", "Functional"⟩,
   ⟨"DL2", "Radiation beam status indicators", "Functional", "Functional"⟩,
   ⟨"DL3", "Audio-visual monitor", "Functional", "Functional"⟩,
   ⟨"DL4", "Gantry/collimator motion interlock", "Functional", "Functional"⟩,
   ⟨"DL5", "Couch motion/brakes", "Functional", "Functional"⟩,
   ⟨"DL6", "Radiation area monitors", "Functional", "Functional"⟩,
   ⟨"DL7", "Beam interrupt devices", "Functional", "Functional"⟩,
   ⟨"DL8", "Output constancy – photons", "2.00%", "3.00%"⟩,
   ⟨"DL9", "Output constancy – electrons", "2.00%", "3.00%"⟩]

/-- The monthly checklist of SASQART_TESTS in models.py. -/
def sasqartMonthly : List TestDef :=
  [⟨"ML1", "Emergency off switches", "Functional", "Functional"⟩,
   ⟨"ML2", "Lasers and crosswires", "1 mm", "2 mm"⟩,
   ⟨"ML3", "Optical distance indicator", "1 mm", "2 mm"⟩,
   ⟨"ML4", "Radiation/light field size", "1 mm", "2 mm"⟩,
   ⟨"ML5", "Physical/dynamic wedge factors", "1%", "2%"⟩,
   ⟨"ML6", "Gantry angle indicators", "0.5°", "1°"⟩,
   ⟨"ML7", "Collimator angle indicators", "0.5°", "1°"⟩,
   ⟨"ML8", "Couch position indicators", "1 mm", "2 mm"⟩,
   ⟨"ML9", "Couch rotation isocentre", "1 mm", "2 mm"⟩,
   ⟨"ML10", "Couch angle indicator", "0.5°", "1°"⟩,
   ⟨"ML11", "Collimator rotation isocentre", "1 mm", "2 mm"⟩,
   ⟨"ML12", "Light/radiation field coincidence", "1 mm", "2 mm"⟩,
   ⟨"ML13", "Beam flatness constancy", "1%", "2%"⟩,
   ⟨"ML14", "Beam symmetry constancy", "1%", "2%"⟩,
   ⟨"ML15", "Relative dosimetry constancy", "1%", "2%"⟩,
   ⟨"ML16", "Accuracy of QA records", "Complete", "Complete"⟩]

/-- The quarterly checklist of SASQART_TESTS in models.py. -/
def sasqartQuarterly : List TestDef :=
  [⟨"Q1", "Central axis depth dose reproducibility", "1%/2mm", "2%/3mm"⟩]

/-- The annual checklist of SASQART_TESTS in models.py. -/
def sasqartAnnual : List TestDef :=
  [⟨"AL1", "Accessory mechanical integrity", "Safe", "Safe"⟩,
   ⟨"AL2", "Accessory interlocks", "Functional", "Functional"⟩,
   ⟨"AL3", "ODI at extended distances", "1 mm", "2 mm"⟩,
   ⟨"AL4", "Light/rad coincidence vs gantry", "1 mm", "2 mm"⟩,
   ⟨"AL5", "Field size vs gantry angle", "1 mm", "2 mm"⟩,
   ⟨"AL6", "TRS-398 calibration", "1%", "2%"⟩,
   ⟨"AL7", "Output factors", "1%", "2%"⟩,
   ⟨"AL8", "Wedge transmission and profiles", "1%", "2%"⟩,
   ⟨"AL9", "Accessory transmission factors", "1%", "2%"⟩,
   ⟨"AL10", "Output vs gantry angle", "1%", "2%"⟩,
   ⟨"AL11", "Symmetry vs gantry angle", "1%", "2%"⟩,
   ⟨"AL12", "Monitor unit linearity", "1%", "2%"⟩,
   ⟨"AL13", "Monitor unit end effect", "< 1 MU", "< 2 MU"⟩,
   ⟨"AL14", "Collimator rotation isocentre", "1 mm", "2 mm"⟩,
   ⟨"AL15", "Gantry rotation isocentre", "1 mm", "2 mm"⟩,
   ⟨"AL16", "Couch rotation isocentre", "1 mm", "2 mm"⟩,
   ⟨"AL17", "Coincidence of axes", "1 mm", "2 mm"⟩,
   ⟨"AL18", "Independent review", "Complete", "Complete"⟩]

/-- Dictionary lookup in SASQART_TESTS of models.py: the four fixed session
types map to their checklists, any other key is absent (KeyError on index). -/
def SASQART_TESTS (qa_type : String) : Option (List TestDef) :=
  if qa_type = "daily" then some sasqartDaily
  else if qa_type = "monthly" then some sasqartMonthly
  else if qa_type = "quarterly" then some sasqartQuarterly
  else if qa_type = "annual" then some sasqartAnnual
  else none

/-- A linac unit row (class Unit in models.py); surrogate key id,
name declared UNIQUE, active flag defaulting to true. -/
structure Unit where
  id : Nat
  name : String
  manufacturer : String
  model : String
  serial_number : String
  location : String
  install_date : Option Int
  photon_energies : List String
  electron_energies : List String
  fff_energies : List String
  active : Bool
  deriving DecidableEq

/-- Derived property of Unit in models.py: photon energies then FFF energies. -/
def Unit.all_photon_energies (u : Unit) : List String :=
  u.photon_energies ++ u.fff_energies

/-- A QA report header row (class QAReport in models.py). -/
structure QAReport where
  id : Nat
  date : Int
  qa_type : String
  unit_id : Nat
  performer : String
  witness : String
  comments : String
  signature : String
  created_by : Nat
  deriving DecidableEq

/-- An individual test result row (class QATest in models.py). -/
structure QATest where
  id : Nat
  report_id : Nat
  test_id : String
  status : String
  notes : String
  measurement : Option Rat
  deriving DecidableEq

/-- An output constancy reading row (class OutputReading in models.py). -/
structure OutputReading where
  id : Nat
  date : Int
  unit_id : Nat
  energy : String
  reading : Rat
  reference : Rat
  deviation : Rat
  deriving DecidableEq

/-- An audit trail row (class AuditLog in models.py, fields used by log_audit). -/
structure AuditLog where
  user : String
  action : String
  details : String
  deriving DecidableEq

/-- The database state: the tables used by the QA core, in insertion order,
with autoincrement counters for the surrogate keys. -/
structure Store where
  units : List Unit
  reports : List QAReport
  tests : List QATest
  readings : List OutputReading
  audit : List AuditLog
  nextUnitId : Nat
  nextReportId : Nat
  nextTestId : Nat
  nextReadingId : Nat
  deriving DecidableEq

/-- Python exceptions that can escape the handlers modelled here. -/
inductive PyError where
  | keyError
  | attributeError
  | zeroDivisionError
  | integrityError
  deriving DecidableEq

/-- FastAPI form lookup with default (form_data.get(key, dflt)). -/
def lookupD (l : List (String × String)) (k : String) (dflt : String) : String :=
  match l.find? (fun p => p.1 == k) with
  | some p => p.2
  | none => dflt

/-- The POST api/output-reading handler save_output_reading in main.py:
Python computes the deviation by division before any row is added, so a zero
reference raises ZeroDivisionError and nothing is committed; otherwise the
reading row is inserted with the deviation computed once and stored. -/
def save_output_reading (db : Store) (d : Int) (uid : Nat) (energy : String)
    (reading reference : Rat) : Store × Option PyError :=
  if reference = 0 then (db, some .zeroDivisionError)
  else
    let row : OutputReading :=
      { id := db.nextReadingId, date := d, unit_id := uid, energy := energy,
        reading := reading, reference := reference,
        deviation := ((reading - reference) / reference) * 100 }
    ({ db with readings := db.readings ++ [row],
               nextReadingId := db.nextReadingId + 1 }, none)

/-- The empty database. -/
def emptyStore : Store :=
  { units := [], reports := [], tests := [], readings := [], audit := [],
    nextUnitId := 1, nextReportId := 1, nextTestId := 1, nextReadingId := 1 }

/-- ORDER BY date DESC on reports, as a stable sort over insertion order. -/
def sortByDateDesc (l : List QAReport) : List QAReport :=
  List.insertionSort (fun a b => b.date ≤ a.date) l

/-- ORDER BY date ascending on output readings. -/
def sortByDateAsc (l : List OutputReading) : List OutputReading :=
  List.insertionSort (fun a b => a.date ≤ b.date) l

instance : IsTotal QAReport (fun a b => b.date ≤ a.date) :=
  ⟨fun a b => le_total b.date a.date⟩

instance : IsTrans QAReport (fun a b => b.date ≤ a.date) :=
  ⟨fun _ _ _ h h' => le_trans h' h⟩

instance : IsTotal OutputReading (fun a b => a.date ≤ b.date) :=
  ⟨fun a b => le_total a.date b.date⟩

instance : IsTrans OutputReading (fun a b => a.date ≤ b.date) :=
  ⟨fun _ _ _ h h' => le_trans h h'⟩

/-- The per-unit, per-type report query issued by the dashboard handler in
main.py: reports filtered on unit_id and qa_type. -/
def reportsFor (db : Store) (uid : Nat) (t : String) : List QAReport :=
  db.reports.filter (fun r => r.unit_id == uid && r.qa_type == t)

/-- order_by(QAReport.date.desc()).first() in the dashboard handler. -/
def lastReport (db : Store) (uid : Nat) (t : String) : Option QAReport :=
  (sortByDateDesc (reportsFor db uid t)).head?

/-- daily_due in the dashboard handler: not last_daily or last_daily.date < today. -/
def daily_due (db : Store) (today : Int) (uid : Nat) : Bool :=
  match lastReport db uid "daily" with
  | none => true
  | some r => decide (r.date < today)

/-- monthly_due in the dashboard handler:
not last_monthly or (today - last_monthly.date).days > 30. -/
def monthly_due (db : Store) (today : Int) (uid : Nat) : Bool :=
  match lastReport db uid "monthly" with
  | none => true
  | some r => decide (30 < today - r.date)

/-- One entry of the qa_status list built by the dashboard handler. -/
structure DueStatus where
  unit : Unit
  last_daily : Option Int
  last_monthly : Option Int
  daily_due : Bool
  monthly_due : Bool
  deriving DecidableEq

/-- The qa_status list of the dashboard handler in main.py: one entry per
active unit, with the last daily and monthly report dates and due flags. -/
def dashboard_qa_status (db : Store) (today : Int) : List DueStatus :=
  (db.units.filter (fun u => u.active)).map (fun u =>
    { unit := u,
      last_daily := (lastReport db u.id "daily").map QAReport.date,
      last_monthly := (lastReport db u.id "monthly").map QAReport.date,
      daily_due := daily_due db today u.id,
      monthly_due := monthly_due db today u.id })

/-- The trends handler in main.py: when unit_id and energy are both supplied
and truthy, the readings for that unit and energy dated within the last days
days, ordered by date ascending; otherwise the trend data is empty. -/
def trends_page (db : Store) (today : Int) (unit_id : Option Nat)
    (energy : Option String) (days : Int) : List OutputReading :=
  match unit_id, energy with
  | some uid, some e =>
    if uid != 0 && e != "" then
      sortByDateAsc (db.readings.filter (fun r =>
        r.unit_id == uid && r.energy == e && decide (today - days ≤ r.date)))
    else []
  | _, _ => []

/-- The qa_type stage of the history query in main.py: applied only when the
parameter is supplied, truthy (non-empty) and not the string all. -/
def qaTypeFilter (qa_type : Option String) (l : List QAReport) : List QAReport :=
  match qa_type with
  | some t => if t != "" && t != "all" then l.filter (fun r => r.qa_type == t) else l
  | none => l

/-- The unit_id stage of the history query in main.py: applied only when the
parameter is supplied and truthy (nonzero). -/
def unitFilter (unit_id : Option Nat) (l : List QAReport) : List QAReport :=
  match unit_id with
  | some u => if u != 0 then l.filter (fun r => r.unit_id == u) else l
  | none => l

/-- The history handler in main.py: a missing end date defaults to today and a
missing start date to today - 30; the date-range, qa_type and unit_id filters
are then applied in sequence (hence conjunctively) and the result is ordered
by date descending. -/
def history_page (db : Store) (today : Int) (start_date end_date : Option Int)
    (qa_type : Option String) (unit_id : Option Nat) : List QAReport :=
  sortByDateDesc
    (unitFilter unit_id
      (qaTypeFilter qa_type
        ((db.reports.filter
            (fun r => decide (start_date.getD (today - 30) ≤ r.date))).filter
          (fun r => decide (r.date ≤ end_date.getD today)))))

/-- A concrete active unit used in witnesses. -/
def unitA : Unit :=
  { id := 1, name := "Linac 1", manufacturer := "Varian", model := "Clinac",
    serial_number := "SN1", location := "Vault 1", install_date := none,
    photon_energies := ["6MV", "15MV"], electron_energies := ["6MeV"],
    fff_energies := [], active := true }

/-- A concrete daily report dated day 99 for unit 1. -/
def reportDaily99 : QAReport :=
  { id := 1, date := 99, qa_type := "daily", unit_id := 1, performer := "phys",
    witness := "", comments := "", signature := "", created_by := 1 }

/-- A store with one active unit and one daily report dated day 99. -/
def storeC2 : Store :=
  { emptyStore with
      units := [unitA]
      reports := [reportDaily99]
      nextUnitId := 2
      nextReportId := 2 }

/-- The dashboard entry for unitA in storeC2 at today = 100. -/
def dueA : DueStatus :=
  { unit := unitA, last_daily := some 99, last_monthly := none,
    daily_due := true, monthly_due := true }

/-- A report dated day 60, outside the default 30-day window at today = 100. -/
def reportOld : QAReport :=
  { id := 2, date := 60, qa_type := "daily", unit_id := 1, performer := "phys",
    witness := "", comments := "", signature := "", created_by := 1 }

/-- A store holding only the day-60 report. -/
def storeC8 : Store :=
  { emptyStore with
      reports := [reportOld]
      nextReportId := 3 }

/-- The submitted QA form read by save_qa_report in main.py: the fixed header
fields plus the dynamically named per-item fields, modelled as association
lists keyed by the field name (status_ID and notes_ID). -/
structure QAForm where
  qa_date : Int
  unit_id : Nat
  performer : String
  witness : String
  comments : String
  signature : String
  statuses : List (String × String)
  notes : List (String × String)
  deriving DecidableEq

/-- The POST qa handler save_qa_report in main.py. An unknown qa_type raises
KeyError at the SASQART_TESTS index after only a flush, so nothing commits.
Otherwise the report header and one QATest row per registry item are built
(each status read by form_data.get with default empty) and committed; only
then is the unit looked up for the audit message, so a missing unit raises
AttributeError after the commit, leaving the report and tests persisted. No
validation of the submitted field names is performed anywhere. -/
def save_qa_report (db : Store) (qa_type : String) (form : QAForm)
    (userId : Nat) : Store × Option PyError :=
  match SASQART_TESTS qa_type with
  | none => (db, some .keyError)
  | some items =>
    let rid := db.nextReportId
    let report : QAReport :=
      { id := rid, date := form.qa_date, qa_type := qa_type,
        unit_id := form.unit_id, performer := form.performer,
        witness := form.witness, comments := form.comments,
        signature := form.signature, created_by := userId }
    let newTests : List QATest := items.enum.map (fun p =>
      { id := db.nextTestId + p.1, report_id := rid, test_id := p.2.id,
        status := lookupD form.statuses ("status_" ++ p.2.id) "",
        notes := lookupD form.notes ("notes_" ++ p.2.id) "",
        measurement := none })
    let db1 : Store :=
      { db with
          reports := db.reports ++ [report]
          tests := db.tests ++ newTests
          nextReportId := rid + 1
          nextTestId := db.nextTestId + newTests.length }
    match db.units.find? (fun u => u.id == form.unit_id) with
    | none => (db1, some .attributeError)
    | some u =>
      ({ db1 with
           audit := db1.audit ++
             [{ user := "", action := "SAVE_QA",
                details := qa_type ++ " QA saved for " ++ u.name }] }, none)

/-- A submitted daily QA form for unit 1 marking DL1 pass. -/
def exForm : QAForm :=
  { qa_date := 100, unit_id := 1, performer := "phys", witness := "",
    comments := "", signature := "", statuses := [("status_DL1", "pass")],
    notes := [] }

/-- A submitted daily QA form whose only result key names the checklist id
BOGUS, which is not an id in the daily registry. -/
def exFormBogus : QAForm :=
  { exForm with statuses := [("status_BOGUS", "pass")] }

/-- A store holding only the active unit with id 1. -/
def storeU : Store :=
  { emptyStore with
      units := [unitA]
      nextUnitId := 2 }

/-- Comma-separated energy parsing in save_unit: split on commas, strip each
entry, drop blanks. -/
def parseEnergies (s : String) : List String :=
  ((s.splitOn ",").map String.trim).filter (fun e => e != "")

/-- The unit configuration form read by save_unit in main.py; a unit_id of
none models the value new (or a missing falsy value), which creates a unit. -/
structure UnitForm where
  unit_id : Option Nat
  name : String
  manufacturer : String
  model : String
  serial_number : String
  location : String
  install_date : Option Int
  photon_energies : String
  electron_energies : String
  fff_energies : String
  deriving DecidableEq

/-- The POST units handler save_unit in main.py. The application code does no
duplicate-name check; the UNIQUE constraint declared on Unit.name in models.py
is enforced by the database at commit: a violating commit raises
IntegrityError and the transaction rolls back, leaving the store unchanged.
Updating an id that matches no unit dereferences None (AttributeError) before
any write. The install date is only assigned when supplied. -/
def save_unit (db : Store) (form : UnitForm) : Store × Option PyError :=
  match form.unit_id with
  | some i =>
    match db.units.find? (fun u => u.id == i) with
    | none => (db, some .attributeError)
    | some u =>
      let u' : Unit :=
        { u with
            name := form.name
            manufacturer := form.manufacturer
            model := form.model
            serial_number := form.serial_number
            location := form.location
            install_date :=
              match form.install_date with
              | some d => some d
              | none => u.install_date
            photon_energies := parseEnergies form.photon_energies
            electron_energies := parseEnergies form.electron_energies
            fff_energies := parseEnergies form.fff_energies }
      if (db.units.filter (fun v => v.id != u.id)).any
          (fun v => v.name == form.name)
      then (db, some .integrityError)
      else ({ db with
                units := db.units.map (fun v => if v.id == u.id then u' else v) },
            none)
  | none =>
    let u : Unit :=
      { id := db.nextUnitId, name := form.name,
        manufacturer := form.manufacturer, model := form.model,
        serial_number := form.serial_number, location := form.location,
        install_date := form.install_date,
        photon_energies := parseEnergies form.photon_energies,
        electron_energies := parseEnergies form.electron_energies,
        fff_energies := parseEnergies form.fff_energies, active := true }
    if db.units.any (fun v => v.name == form.name)
    then (db, some .integrityError)
    else ({ db with
              units := db.units ++ [u]
              nextUnitId := db.nextUnitId + 1 }, none)

/-- A creation form whose name duplicates the existing unit named Linac 1. -/
def dupForm : UnitForm :=
  { unit_id := none, name := "Linac 1", manufacturer := "Elekta",
    model := "Versa HD", serial_number := "SN2", location := "Vault 2",
    install_date := none, photon_energies := "6MV, 10MV",
    electron_energies := "", fff_energies := "" }

/-- C9: for each of the four session types, the registry returns a non-empty
checklist whose ids are pairwise distinct, and the lookup is pure: two calls
with the same type return equal sequences. -/
theorem C9_itemsFor_registry :
    (SASQART_TESTS "daily" = some sasqartDaily ∧ sasqartDaily ≠ [] ∧
      (sasqartDaily.map TestDef.id).Nodup) ∧
    (SASQART_TESTS "monthly" = some sasqartMonthly ∧ sasqartMonthly ≠ [] ∧
      (sasqartMonthly.map TestDef.id).Nodup) ∧
    (SASQART_TESTS "quarterly" = some sasqartQuarterly ∧ sasqartQuarterly ≠ [] ∧
      (sasqartQuarterly.map TestDef.id).Nodup) ∧
    (SASQART_TESTS "annual" = some sasqartAnnual ∧ sasqartAnnual ≠ [] ∧
      (sasqartAnnual.map TestDef.id).Nodup) ∧
    (∀ t : String, SASQART_TESTS t = SASQART_TESTS t) := by
  refine ⟨⟨rfl, by decide, by decide⟩, ⟨rfl, by decide, by decide⟩,
    ⟨rfl, by decide, by decide⟩, ⟨rfl, by decide, by decide⟩, fun t => rfl⟩

/-- C3: for every record call with a nonzero reference, no error is raised and
the stored row's deviation equals (reading - reference) / reference * 100,
computed at creation; in particular reading 98 against reference 100 stores
deviation -2. -/
theorem C3_deviation_formula (db : Store) (d : Int) (uid : Nat) (e : String)
    (reading reference : Rat) (h : reference ≠ 0) :
    (save_output_reading db d uid e reading reference).2 = none ∧
    (save_output_reading db d uid e reading reference).1.readings =
      db.readings ++
        [{ id := db.nextReadingId, date := d, unit_id := uid, energy := e,
           reading := reading, reference := reference,
           deviation := ((reading - reference) / reference) * 100 }] ∧
    ((save_output_reading db d uid e 98 100).1.readings.getLast?).map
        OutputReading.deviation = some (-2) := by
  refine ⟨?_, ?_, ?_⟩
  · simp [save_output_reading, h]
  · simp [save_output_reading, h]
  · have h100 : (100 : Rat) ≠ 0 := by norm_num
    simp [save_output_reading, h100, List.getLast?_concat]
    norm_num

/-- Witness for C3 at a concrete input: reference 100 is nonzero, the call
succeeds, and the stored deviation for reading 98 is -2. -/
theorem C3_deviation_formula_witness :
    (save_output_reading emptyStore 0 1 "6MV" 98 100).2 = none ∧
    (save_output_reading emptyStore 0 1 "6MV" 98 100).1.readings =
      emptyStore.readings ++
        [{ id := emptyStore.nextReadingId, date := 0, unit_id := 1, energy := "6MV",
           reading := 98, reference := 100,
           deviation := (((98 : Rat) - 100) / 100) * 100 }] ∧
    ((save_output_reading emptyStore 0 1 "6MV" 98 100).1.readings.getLast?).map
        OutputReading.deviation = some (-2) :=
  C3_deviation_formula emptyStore 0 1 "6MV" 98 100 (by norm_num)

/-- C4: for every record call with reference 0, the handler fails (the Python
division raises ZeroDivisionError before any insert) and the store is
unchanged: no OutputReading row is persisted. -/
theorem C4_zero_reference (db : Store) (d : Int) (uid : Nat) (e : String)
    (reading : Rat) :
    save_output_reading db d uid e reading 0 = (db, some PyError.zeroDivisionError) := by
  simp [save_output_reading]

/-- Sorting by date descending preserves membership. -/
lemma mem_sortByDateDesc {l : List QAReport} {r : QAReport} :
    r ∈ sortByDateDesc l ↔ r ∈ l :=
  List.mem_insertionSort _

/-- The dashboard query yields none exactly when the unit has no report of
that type. -/
lemma lastReport_none_iff (db : Store) (uid : Nat) (t : String) :
    lastReport db uid t = none ↔ reportsFor db uid t = [] := by
  unfold lastReport sortByDateDesc
  rw [List.head?_eq_none_iff]
  constructor
  · intro h
    have hp := List.perm_insertionSort (fun a b : QAReport => b.date ≤ a.date)
      (reportsFor db uid t)
    rw [h] at hp
    exact hp.symm.eq_nil
  · intro h
    rw [h]
    rfl

/-- The dashboard query returns a report of maximal date. -/
lemma lastReport_max (db : Store) (uid : Nat) (t : String) (r : QAReport)
    (h : lastReport db uid t = some r) :
    r ∈ reportsFor db uid t ∧ ∀ r' ∈ reportsFor db uid t, r'.date ≤ r.date := by
  unfold lastReport at h
  cases hs : sortByDateDesc (reportsFor db uid t) with
  | nil => rw [hs] at h; exact absurd h (by simp)
  | cons a tl =>
    rw [hs] at h
    have ha : a = r := by simpa using h
    subst ha
    have hsorted : List.Sorted (fun x y : QAReport => y.date ≤ x.date)
        (sortByDateDesc (reportsFor db uid t)) := by
      unfold sortByDateDesc
      exact List.sorted_insertionSort _ _
    rw [hs] at hsorted
    constructor
    · rw [← mem_sortByDateDesc, hs]
      exact List.mem_cons_self a tl
    · intro r' hr'
      rw [← mem_sortByDateDesc, hs] at hr'
      rcases List.mem_cons.mp hr' with h1 | h2
      · rw [h1]
      · exact List.rel_of_sorted_cons hsorted r' h2

/-- Characterisation of the daily due flag computed by the dashboard. -/
lemma daily_due_iff (db : Store) (today : Int) (uid : Nat) :
    daily_due db today uid = true ↔
      reportsFor db uid "daily" = [] ∨
      ∃ r, lastReport db uid "daily" = some r ∧
        (∀ r' ∈ reportsFor db uid "daily", r'.date ≤ r.date) ∧ r.date < today := by
  unfold daily_due
  cases h : lastReport db uid "daily" with
  | none =>
    simp only [h]
    exact ⟨fun _ => Or.inl ((lastReport_none_iff db uid "daily").mp h), fun _ => trivial⟩
  | some r =>
    simp only [h]
    constructor
    · intro hd
      exact Or.inr ⟨r, rfl, (lastReport_max db uid "daily" r h).2, of_decide_eq_true hd⟩
    · rintro (hnil | ⟨r', hr', _, hlt⟩)
      · rw [(lastReport_none_iff db uid "daily").mpr hnil] at h
        simp at h
      · cases hr'
        exact decide_eq_true hlt

/-- Characterisation of the monthly due flag computed by the dashboard. -/
lemma monthly_due_iff (db : Store) (today : Int) (uid : Nat) :
    monthly_due db today uid = true ↔
      reportsFor db uid "monthly" = [] ∨
      ∃ r, lastReport db uid "monthly" = some r ∧
        (∀ r' ∈ reportsFor db uid "monthly", r'.date ≤ r.date) ∧
        30 < today - r.date := by
  unfold monthly_due
  cases h : lastReport db uid "monthly" with
  | none =>
    simp only [h]
    exact ⟨fun _ => Or.inl ((lastReport_none_iff db uid "monthly").mp h), fun _ => trivial⟩
  | some r =>
    simp only [h]
    constructor
    · intro hd
      exact Or.inr ⟨r, rfl, (lastReport_max db uid "monthly" r h).2, of_decide_eq_true hd⟩
    · rintro (hnil | ⟨r', hr', _, hlt⟩)
      · rw [(lastReport_none_iff db uid "monthly").mpr hnil] at h
        simp at h
      · cases hr'
        exact decide_eq_true hlt

/-- C2: for every entry of the dashboard qa_status list (one per active unit),
the daily due flag is set iff the unit has no daily report or its most recent
daily report is dated strictly before today, and the monthly due flag is set
iff the unit has no monthly report or today minus the most recent monthly
report date exceeds 30 days; hence a monthly report dated exactly 30 days ago
gives monthly_due false and a daily report dated today gives daily_due false. -/
theorem C2_due_date_scheduler (db : Store) (today : Int) (s : DueStatus)
    (hs : s ∈ dashboard_qa_status db today) :
    (s.daily_due = true ↔
      reportsFor db s.unit.id "daily" = [] ∨
      ∃ r, lastReport db s.unit.id "daily" = some r ∧
        (∀ r' ∈ reportsFor db s.unit.id "daily", r'.date ≤ r.date) ∧
        r.date < today) ∧
    (s.monthly_due = true ↔
      reportsFor db s.unit.id "monthly" = [] ∨
      ∃ r, lastReport db s.unit.id "monthly" = some r ∧
        (∀ r' ∈ reportsFor db s.unit.id "monthly", r'.date ≤ r.date) ∧
        30 < today - r.date) := by
  unfold dashboard_qa_status at hs
  obtain ⟨u, _, rfl⟩ := List.mem_map.mp hs
  exact ⟨daily_due_iff db today u.id, monthly_due_iff db today u.id⟩

/-- Witness for C2: in the concrete store with one active unit whose only
daily report is dated 99, at today = 100 both flags are due and the
characterisation holds. -/
theorem C2_due_date_scheduler_witness :
    dueA ∈ dashboard_qa_status storeC2 100 ∧
    ((dueA.daily_due = true ↔
        reportsFor storeC2 dueA.unit.id "daily" = [] ∨
        ∃ r, lastReport storeC2 dueA.unit.id "daily" = some r ∧
          (∀ r' ∈ reportsFor storeC2 dueA.unit.id "daily", r'.date ≤ r.date) ∧
          r.date < 100) ∧
     (dueA.monthly_due = true ↔
        reportsFor storeC2 dueA.unit.id "monthly" = [] ∨
        ∃ r, lastReport storeC2 dueA.unit.id "monthly" = some r ∧
          (∀ r' ∈ reportsFor storeC2 dueA.unit.id "monthly", r'.date ≤ r.date) ∧
          30 < 100 - r.date)) :=
  ⟨by decide, C2_due_date_scheduler storeC2 100 dueA (by decide)⟩

/-- C7: the trends page lists readings with non-decreasing dates
(chronological ascending) and the history page lists reports with
non-increasing dates (most recent first). -/
theorem C7_result_orderings (db : Store) (today : Int) (uid : Option Nat)
    (energy : Option String) (days : Int) (sd ed : Option Int)
    (qt : Option String) (fuid : Option Nat) :
    List.Sorted (fun a b : OutputReading => a.date ≤ b.date)
      (trends_page db today uid energy days) ∧
    List.Sorted (fun a b : QAReport => b.date ≤ a.date)
      (history_page db today sd ed qt fuid) := by
  constructor
  · rcases uid with _ | u <;> rcases energy with _ | e <;>
      simp only [trends_page]
    · exact List.sorted_nil
    · exact List.sorted_nil
    · exact List.sorted_nil
    · split
      · unfold sortByDateAsc
        exact List.sorted_insertionSort _ _
      · exact List.sorted_nil
  · unfold history_page sortByDateDesc
    exact List.sorted_insertionSort _ _

/-- Membership in the qa_type filter stage of the history query. -/
lemma mem_qaTypeFilter (qt : Option String) (l : List QAReport) (r : QAReport) :
    r ∈ qaTypeFilter qt l ↔
      r ∈ l ∧ ∀ t, qt = some t → t ≠ "" → t ≠ "all" → r.qa_type = t := by
  rcases qt with _ | t
  · simp [qaTypeFilter]
  · unfold qaTypeFilter
    dsimp only
    by_cases h1 : t = ""
    · subst h1
      simp
    · by_cases h2 : t = "all"
      · subst h2
        simp
      · have hcond : (t != "" && t != "all") = true := by simp [h1, h2]
        rw [if_pos hcond]
        simp only [List.mem_filter, beq_iff_eq, Option.some.injEq, forall_eq']
        tauto

/-- Membership in the unit_id filter stage of the history query. -/
lemma mem_unitFilter (uid : Option Nat) (l : List QAReport) (r : QAReport) :
    r ∈ unitFilter uid l ↔
      r ∈ l ∧ ∀ u, uid = some u → u ≠ 0 → r.unit_id = u := by
  rcases uid with _ | u
  · simp [unitFilter]
  · unfold unitFilter
    dsimp only
    by_cases h : u = 0
    · subst h
      simp
    · have hcond : (u != 0) = true := by simp [h]
      rw [if_pos hcond]
      simp only [List.mem_filter, beq_iff_eq, Option.some.injEq, forall_eq']
      tauto

/-- C8 counterexample: with every filter omitted, a report dated 40 days
before today is excluded by the implicit default window of the last 30 days,
although it satisfies all (zero) supplied filters; so an omitted date filter
does constrain the result set, contradicting the claim. -/
theorem C8_counterexample :
    reportOld ∈ storeC8.reports ∧
    reportOld ∉ history_page storeC8 100 none none none none := by
  decide

/-- C8 amended: the qa_type and unit_id filters are optional and impose no
constraint when omitted (or when qa_type is blank or the string all, or
unit_id is 0), but an omitted start date defaults to today - 30 and an
omitted end date to today; subject to those defaults all filters are
conjunctive: a report is returned iff it satisfies every effective filter. -/
theorem C8_amended_filters (db : Store) (today : Int) (sd ed : Option Int)
    (qt : Option String) (uid : Option Nat) (r : QAReport) :
    r ∈ history_page db today sd ed qt uid ↔
      (r ∈ db.reports ∧ sd.getD (today - 30) ≤ r.date ∧ r.date ≤ ed.getD today ∧
       (∀ t, qt = some t → t ≠ "" → t ≠ "all" → r.qa_type = t) ∧
       (∀ u, uid = some u → u ≠ 0 → r.unit_id = u)) := by
  unfold history_page sortByDateDesc
  rw [List.mem_insertionSort, mem_unitFilter, mem_qaTypeFilter]
  simp only [List.mem_filter, decide_eq_true_eq]
  tauto

/-- Any checklist returned by the registry has pairwise distinct ids. -/
lemma sasqart_ids_nodup (qa_type : String) (items : List TestDef)
    (h : SASQART_TESTS qa_type = some items) : (items.map TestDef.id).Nodup := by
  unfold SASQART_TESTS at h
  split_ifs at h
  · injection h with h2
    subst h2
    decide
  · injection h with h2
    subst h2
    decide
  · injection h with h2
    subst h2
    decide
  · injection h with h2
    subst h2
    decide

/-- The ids of the per-item rows built by save_qa_report are the registry ids. -/
lemma enum_tests_map_id (items : List TestDef) (f : Nat × TestDef → QATest)
    (hf : ∀ p, (f p).test_id = p.2.id) :
    (items.enum.map f).map QATest.test_id = items.map TestDef.id := by
  rw [List.map_map]
  have h1 : (QATest.test_id ∘ f) = (TestDef.id ∘ Prod.snd) := by
    funext p
    exact hf p
  rw [h1, ← List.map_map, List.enum_map_snd]

/-- The table of test rows written by save_qa_report for a known session type:
the committed store appends exactly one QATest row per registry item, whatever
the unit lookup for the audit message later yields. -/
lemma save_qa_report_tests (db : Store) (qa_type : String) (form : QAForm)
    (userId : Nat) (items : List TestDef)
    (hty : SASQART_TESTS qa_type = some items) :
    (save_qa_report db qa_type form userId).1.tests
      = db.tests ++ items.enum.map (fun p =>
          ({ id := db.nextTestId + p.1, report_id := db.nextReportId,
             test_id := p.2.id,
             status := lookupD form.statuses ("status_" ++ p.2.id) "",
             notes := lookupD form.notes ("notes_" ++ p.2.id) "",
             measurement := none } : QATest)) := by
  unfold save_qa_report
  rw [hty]
  dsimp only
  cases db.units.find? (fun u => u.id == form.unit_id) <;> rfl

/-- C1 counterexample: a daily createSession whose results mapping holds the
key BOGUS, which is not an id of the daily checklist, succeeds (no error at
all, in particular no UnknownChecklistItem) and changes the store, contrary
to the claim that it fails and persists nothing. -/
theorem C1_counterexample :
    ("BOGUS" ∉ sasqartDaily.map TestDef.id) ∧
    ("status_BOGUS", "pass") ∈ exFormBogus.statuses ∧
    (save_qa_report storeU "daily" exFormBogus 1).2 = none ∧
    (save_qa_report storeU "daily" exFormBogus 1).1 ≠ storeU := by
  refine ⟨by decide, by decide, by decide, by decide⟩

/-- C1 amended: save_qa_report performs no validation of the submitted result
keys: for any form, with a known session type and an existing unit, the call
succeeds, one report row is added, and the persisted test rows are exactly
the registry items (any key outside the registry is silently ignored). -/
theorem C1_amended_unknown_keys_ignored (db : Store) (qa_type : String)
    (form : QAForm) (userId : Nat) (items : List TestDef)
    (hty : SASQART_TESTS qa_type = some items)
    (u : Unit) (hu : db.units.find? (fun v => v.id == form.unit_id) = some u) :
    (save_qa_report db qa_type form userId).2 = none ∧
    (save_qa_report db qa_type form userId).1.reports.length
      = db.reports.length + 1 ∧
    ((save_qa_report db qa_type form userId).1.tests.drop db.tests.length).map
        QATest.test_id = items.map TestDef.id := by
  refine ⟨?_, ?_, ?_⟩
  · unfold save_qa_report
    rw [hty]
    dsimp only
    rw [hu]
  · unfold save_qa_report
    rw [hty]
    dsimp only
    rw [hu]
    simp
  · rw [save_qa_report_tests db qa_type form userId items hty, List.drop_left]
    exact enum_tests_map_id items _ (fun p => rfl)

/-- Witness for C1 amended at a concrete input: the store with unit 1 and a
daily form; the call succeeds and writes the nine daily items. -/
theorem C1_amended_unknown_keys_ignored_witness :
    (save_qa_report storeU "daily" exFormBogus 1).2 = none ∧
    (save_qa_report storeU "daily" exFormBogus 1).1.reports.length
      = storeU.reports.length + 1 ∧
    ((save_qa_report storeU "daily" exFormBogus 1).1.tests.drop
        storeU.tests.length).map QATest.test_id = sasqartDaily.map TestDef.id :=
  C1_amended_unknown_keys_ignored storeU "daily" exFormBogus 1 sasqartDaily
    (by decide) unitA (by decide)

/-- C6 counterexample: a daily createSession naming unit 1 in a store with no
units at all does not fail before writing: the report row and its nine test
rows are committed, and only afterwards does the handler raise (AttributeError
while building the audit message), contrary to the claim that the call fails
with UnknownUnit before any write. -/
theorem C6_counterexample :
    emptyStore.units = [] ∧
    (save_qa_report emptyStore "daily" exForm 1).2 = some PyError.attributeError ∧
    (save_qa_report emptyStore "daily" exForm 1).1.reports.length = 1 ∧
    (save_qa_report emptyStore "daily" exForm 1).1.tests.length = 9 := by
  refine ⟨rfl, by decide, by decide, by decide⟩

/-- C6 amended: with a known session type and a unitId matching no unit, the
report and all its test rows are committed and the handler then fails with
AttributeError while preparing the audit entry, after the commit; there is no
UnknownUnit validation before the write. -/
theorem C6_amended_unknown_unit_commits (db : Store) (qa_type : String)
    (form : QAForm) (userId : Nat) (items : List TestDef)
    (hty : SASQART_TESTS qa_type = some items)
    (hu : db.units.find? (fun v => v.id == form.unit_id) = none) :
    (save_qa_report db qa_type form userId).2 = some PyError.attributeError ∧
    (save_qa_report db qa_type form userId).1.reports.length
      = db.reports.length + 1 ∧
    (save_qa_report db qa_type form userId).1.tests.length
      = db.tests.length + items.length := by
  refine ⟨?_, ?_, ?_⟩
  · unfold save_qa_report
    rw [hty]
    dsimp only
    rw [hu]
  · unfold save_qa_report
    rw [hty]
    dsimp only
    rw [hu]
    simp
  · rw [save_qa_report_tests db qa_type form userId items hty]
    simp

/-- Witness for C6 amended at a concrete input: the empty store with a daily
form naming unit 1. -/
theorem C6_amended_unknown_unit_commits_witness :
    (save_qa_report emptyStore "daily" exForm 1).2 = some PyError.attributeError ∧
    (save_qa_report emptyStore "daily" exForm 1).1.reports.length
      = emptyStore.reports.length + 1 ∧
    (save_qa_report emptyStore "daily" exForm 1).1.tests.length
      = emptyStore.tests.length + sasqartDaily.length :=
  C6_amended_unknown_unit_commits emptyStore "daily" exForm 1 sasqartDaily
    (by decide) (by decide)

/-- C5: for a known session type, the rows written for the new report are
exactly one QATest per registry item: their count equals the registry size,
their ids are the registry ids in order with no duplicate test_id, and any
item whose status key is absent from the submitted form is stored with the
empty (unset) status. -/
theorem C5_backfill_unset (db : Store) (qa_type : String) (form : QAForm)
    (userId : Nat) (items : List TestDef)
    (hty : SASQART_TESTS qa_type = some items)
    (hfresh : ∀ t ∈ db.tests, t.report_id ≠ db.nextReportId) :
    ((save_qa_report db qa_type form userId).1.tests.filter
        (fun t => t.report_id == db.nextReportId)).length = items.length ∧
    (((save_qa_report db qa_type form userId).1.tests.filter
        (fun t => t.report_id == db.nextReportId)).map QATest.test_id)
      = items.map TestDef.id ∧
    (((save_qa_report db qa_type form userId).1.tests.filter
        (fun t => t.report_id == db.nextReportId)).map QATest.test_id).Nodup ∧
    (∀ t ∈ (save_qa_report db qa_type form userId).1.tests.filter
        (fun t => t.report_id == db.nextReportId),
      form.statuses.find? (fun p => p.1 == "status_" ++ t.test_id) = none →
      t.status = "") := by
  rw [save_qa_report_tests db qa_type form userId items hty]
  rw [List.filter_append]
  have h1 : db.tests.filter (fun t => t.report_id == db.nextReportId) = [] := by
    rw [List.filter_eq_nil_iff]
    intro t ht
    simpa using hfresh t ht
  have h2 : (items.enum.map (fun p =>
        ({ id := db.nextTestId + p.1, report_id := db.nextReportId,
           test_id := p.2.id,
           status := lookupD form.statuses ("status_" ++ p.2.id) "",
           notes := lookupD form.notes ("notes_" ++ p.2.id) "",
           measurement := none } : QATest))).filter
      (fun t => t.report_id == db.nextReportId)
      = items.enum.map (fun p =>
        ({ id := db.nextTestId + p.1, report_id := db.nextReportId,
           test_id := p.2.id,
           status := lookupD form.statuses ("status_" ++ p.2.id) "",
           notes := lookupD form.notes ("notes_" ++ p.2.id) "",
           measurement := none } : QATest)) := by
    rw [List.filter_eq_self]
    intro t ht
    obtain ⟨p, _, rfl⟩ := List.mem_map.mp ht
    simp
  rw [h1, h2, List.nil_append]
  have hids := enum_tests_map_id items (fun p =>
    ({ id := db.nextTestId + p.1, report_id := db.nextReportId,
       test_id := p.2.id,
       status := lookupD form.statuses ("status_" ++ p.2.id) "",
       notes := lookupD form.notes ("notes_" ++ p.2.id) "",
       measurement := none } : QATest)) (fun p => rfl)
  refine ⟨by simp, hids, ?_, ?_⟩
  · rw [hids]
    exact sasqart_ids_nodup qa_type items hty
  · intro t ht hnone
    obtain ⟨p, _, rfl⟩ := List.mem_map.mp ht
    unfold lookupD
    rw [hnone]

/-- Witness for C5 at a concrete input: the store with unit 1 and a daily form
that only marks DL1; the other eight items are back-filled with empty status. -/
theorem C5_backfill_unset_witness :
    ((save_qa_report storeU "daily" exForm 1).1.tests.filter
        (fun t => t.report_id == storeU.nextReportId)).length
      = sasqartDaily.length ∧
    (((save_qa_report storeU "daily" exForm 1).1.tests.filter
        (fun t => t.report_id == storeU.nextReportId)).map QATest.test_id)
      = sasqartDaily.map TestDef.id ∧
    (((save_qa_report storeU "daily" exForm 1).1.tests.filter
        (fun t => t.report_id == storeU.nextReportId)).map QATest.test_id).Nodup ∧
    (∀ t ∈ (save_qa_report storeU "daily" exForm 1).1.tests.filter
        (fun t => t.report_id == storeU.nextReportId),
      exForm.statuses.find? (fun p => p.1 == "status_" ++ t.test_id) = none →
      t.status = "") :=
  C5_backfill_unset storeU "daily" exForm 1 sasqartDaily (by decide)
    (by intro t ht; simp [storeU, emptyStore] at ht)

/-- Renaming the unit with a given id preserves distinctness of names when ids
are distinct and no other unit carries the new name. -/
lemma nodup_names_after_update (l : List Unit) (uid : Nat) (u' : Unit)
    (hid : (l.map Unit.id).Nodup)
    (hname : (l.map Unit.name).Nodup)
    (hguard : ∀ v ∈ l, v.id ≠ uid → v.name ≠ u'.name) :
    ((l.map (fun v => if v.id == uid then u' else v)).map Unit.name).Nodup := by
  induction l with
  | nil => simp
  | cons a l ih =>
    rw [List.map_cons] at hid hname
    rw [List.nodup_cons] at hid hname
    rw [List.map_cons, List.map_cons, List.nodup_cons]
    by_cases ha : a.id = uid
    · have hmapg : l.map (fun v => if v.id == uid then u' else v) = l := by
        conv_rhs => rw [← List.map_id l]
        apply List.map_congr_left
        intro v hv
        have hvne : v.id ≠ uid := by
          intro hveq
          exact hid.1 (List.mem_map.mpr ⟨v, hv, hveq.trans ha.symm⟩)
        simp [hvne]
      rw [if_pos (by simpa using ha), hmapg]
      constructor
      · intro hmem
        obtain ⟨v, hv, hveq⟩ := List.mem_map.mp hmem
        have hvne : v.id ≠ uid := by
          intro hveq2
          exact hid.1 (List.mem_map.mpr ⟨v, hv, hveq2.trans ha.symm⟩)
        exact hguard v (List.mem_cons_of_mem a hv) hvne hveq
      · exact hname.2
    · rw [if_neg (by simpa using ha)]
      constructor
      · intro hmem
        obtain ⟨w, hw, hweq⟩ := List.mem_map.mp hmem
        obtain ⟨v, hv, rfl⟩ := List.mem_map.mp hw
        by_cases hv2 : v.id = uid
        · rw [if_pos (by simpa using hv2)] at hweq
          exact hguard a (List.mem_cons_self a l) ha hweq.symm
        · rw [if_neg (by simpa using hv2)] at hweq
          exact hname.1 (List.mem_map.mpr ⟨v, hv, hweq⟩)
      · exact ih hid.2 hname.2
          (fun v hv hvne => hguard v (List.mem_cons_of_mem a hv) hvne)

/-- C10: when unit ids and names are pairwise distinct, creating a unit whose
name another unit already carries (active or not) fails with the
uniqueness-violation error and leaves the store unchanged, and every save_unit
call (create or update) preserves distinctness of unit names. -/
theorem C10_unique_unit_names (db : Store) (form : UnitForm)
    (hid : (db.units.map Unit.id).Nodup)
    (hname : (db.units.map Unit.name).Nodup) :
    (form.unit_id = none → (∃ u ∈ db.units, u.name = form.name) →
      save_unit db form = (db, some PyError.integrityError)) ∧
    ((save_unit db form).1.units.map Unit.name).Nodup := by
  constructor
  · intro hnone hex
    obtain ⟨u, hu, hun⟩ := hex
    unfold save_unit
    rw [hnone]
    dsimp only
    rw [if_pos (List.any_eq_true.mpr ⟨u, hu, by simp [hun]⟩)]
  · unfold save_unit
    cases hform : form.unit_id with
    | none =>
      dsimp only
      split_ifs with hg
      · exact hname
      · rw [List.map_append, List.nodup_append]
        refine ⟨hname, List.nodup_singleton _, ?_⟩
        intro x hx hmem
        simp only [List.map_cons, List.map_nil, List.mem_singleton] at hmem
        subst hmem
        obtain ⟨v, hv, hveq⟩ := List.mem_map.mp hx
        exact hg (List.any_eq_true.mpr ⟨v, hv, by simp [hveq]⟩)
    | some i =>
      dsimp only
      cases hfind : db.units.find? (fun u => u.id == i) with
      | none => exact hname
      | some u =>
        dsimp only
        split_ifs with hg
        · exact hname
        · apply nodup_names_after_update db.units u.id _ hid hname
          intro v hv hvne hveq
          exact hg (List.any_eq_true.mpr
            ⟨v, List.mem_filter.mpr ⟨hv, by simp [hvne]⟩, by simp [hveq]⟩)

/-- Witness for C10 at a concrete input: in the store whose only unit is named
Linac 1, a creation form reusing that name fails with the uniqueness error and
leaves the store unchanged, and name distinctness is preserved. -/
theorem C10_unique_unit_names_witness :
    (dupForm.unit_id = none → (∃ u ∈ storeU.units, u.name = dupForm.name) →
      save_unit storeU dupForm = (storeU, some PyError.integrityError)) ∧
    ((save_unit storeU dupForm).1.units.map Unit.name).Nodup :=
  C10_unique_unit_names storeU dupForm (by decide) (by decide)

end Linac
